import Mathlib

/-
Verification of the samplify API client (lib/client.go).

The client's dispatcher logic is embedded shallowly:
- network calls (`sendRequest`, defined outside client.go) are an oracle
  `Env.net`, consumed in call order via a call counter;
- JSON unmarshalling is an oracle per target shape (`Env.parseToken` for the
  token body, `Env.unmarshalRes` for resource bodies); Go's `json.Unmarshal`
  writes into an existing object and may leave it partially populated on
  failure, so both oracles take the current object and return the updated
  object together with an optional error;
- every dispatcher run additionally produces a trace of the network requests
  it issued (`Event`), so that temporal claims (what precedes what, how many
  acquisitions and retries happen) can be stated about the trace.
-/

set_option autoImplicit false

namespace Samplify

def defaultAuthURL : String := "https://api.researchnow.com/auth/v1/token/password"

def defaultAPIBaseURL : String := "https://api.researchnow.com/sample/v1"

/-- Go `ClientOptions`: base URL of the resource API and URL of the auth endpoint. -/
structure ClientOptions where
  apiBaseURL : String
  authURL : String
deriving DecidableEq, Repr

/-- Go `TokenRequest` (the credentials payload sent to the auth endpoint). -/
structure TokenRequest where
  clientID : String
  username : String
  password : String
deriving DecidableEq, Repr

/-- Go `TokenResponse`: the cached access token. Time is modelled as `Nat`.
`acquired` is the `Acquired *time.Time` stamp, `none` for the zero value. -/
structure TokenResponse where
  accessToken : String
  expiresIn : Nat
  acquired : Option Nat
deriving DecidableEq, Repr

/-- The Go zero value of `TokenResponse`. -/
def TokenResponse.empty : TokenResponse :=
  { accessToken := "", expiresIn := 0, acquired := none }

/-- Modelled from the spec: `TokenResponse.AccessTokenExpired` is declared
outside client.go and is not under src/. Per spec section 3, a token is
expired iff it was never acquired, or acquired_at plus the declared expiry
duration (serving as the conservative margin) is at or before now. -/
def TokenResponse.accessTokenExpired (t : TokenResponse) (now : Nat) : Bool :=
  match t.acquired with
  | none => true
  | some acq => decide (acq + t.expiresIn ≤ now)

/-- Go `APIResponse`: the successful-transport response; only its body is
inspected by client.go. -/
structure APIResponse where
  body : String
deriving DecidableEq, Repr

/-- A Go `error` value as client.go distinguishes them: either a structured
`*ErrorResponse` carrying the HTTP status code (the only case the 401 type
assertion matches), or any other error (transport failure, unmarshal error,
and so on). -/
inductive GoError where
  | errorResponse (httpCode : Nat) (body : String)
  | other (msg : String)
deriving DecidableEq, Repr

/-- The `ok && errResp.HTTPCode == http.StatusUnauthorized` test of client.go:
true iff the error is a structured `*ErrorResponse` with HTTP code 401. -/
def GoError.is401 : GoError → Bool
  | .errorResponse code _ => code == 401
  | .other _ => false

/-- One outcome of `sendRequest`, Go's `(*APIResponse, error)` pair restricted
to the shapes `sendRequest` produces: a response with nil error, or a non-nil
error optionally accompanied by a response body (error responses can still
carry a body, which client.go parses best-effort). -/
inductive SendOutcome where
  | ok (resp : APIResponse)
  | fail (resp : Option APIResponse) (e : GoError)
deriving DecidableEq, Repr

/-- The `*APIResponse` component the Go caller of `sendRequest` sees. -/
def SendOutcome.toAr : SendOutcome → Option APIResponse
  | .ok a => some a
  | .fail a _ => a

/-- The `error` component the Go caller of `sendRequest` sees. -/
def SendOutcome.toErr : SendOutcome → Option GoError
  | .ok _ => none
  | .fail _ e => some e

/-- Modelled from the spec: the DTO response shapes (ProjectResponse and the
other result objects, declared outside client.go and not under src/) are
abstracted to one record of populated fields; client.go treats them all as an
opaque `interface{}` target of `json.Unmarshal`. -/
structure ResObj where
  fields : List (String × String)
deriving DecidableEq, Repr

/-- The freshly allocated zero object, Go `&ProjectResponse{}` and friends. -/
def ResObj.empty : ResObj := { fields := [] }

/-- Go `CreateUpdateProjectCriteria`; client.go reads only `ExtProjectID`
(for the update path), the rest of the payload is abstract. -/
structure CreateUpdateProjectCriteria where
  extProjectID : String
  payload : String
deriving DecidableEq, Repr

/-- Go `Action` is a string-typed action keyword appended as a path segment. -/
abbrev Action := String

/-- The request body values client.go passes to `sendRequest`. -/
inductive Body where
  | empty
  | creds (t : TokenRequest)
  | project (p : CreateUpdateProjectCriteria)
  | buy (b : String)
  | lineItem (li : String)
deriving DecidableEq, Repr

/-- One network request issued by the client, as recorded in the trace:
either the token-acquisition call of `requestAndParseToken`, or a resource
call of `request` (with the bearer token and body it was sent with). -/
inductive Event where
  | acquire (authURL : String) (creds : TokenRequest)
  | resource (baseURL : String) (method : String) (url : String)
      (token : String) (body : Body)
deriving DecidableEq, Repr

/-- True iff the event is a token-acquisition network call. -/
def Event.isAcquire : Event → Bool
  | .acquire _ _ => true
  | .resource _ _ _ _ _ => false

/-- True iff the event is a resource network call. -/
def Event.isResource : Event → Bool
  | .acquire _ _ => false
  | .resource _ _ _ _ _ => true

/-- The world the client runs against: the network oracle (outcome of the
n-th `sendRequest` call) and the JSON unmarshalling oracles. -/
structure Env where
  net : Nat → SendOutcome
  parseToken : String → TokenResponse → TokenResponse × Option GoError
  unmarshalRes : String → ResObj → ResObj × Option GoError

/-- Go `Client`: credentials, the cached auth token, and the options. -/
structure ClientState where
  credentials : TokenRequest
  auth : TokenResponse
  options : ClientOptions
deriving DecidableEq, Repr

/-- Result of `requestAndParseToken`: the returned error, the updated client,
the updated call counter, and the trace of network calls issued. -/
structure TokResult where
  err : Option GoError
  client : ClientState
  calls : Nat
  events : List Event
deriving DecidableEq, Repr

/-- Result of `request`: Go's `(*APIResponse, error)` plus the updated client,
call counter and trace. -/
structure ReqResult where
  ar : Option APIResponse
  err : Option GoError
  client : ClientState
  calls : Nat
  events : List Event
deriving DecidableEq, Repr

/-- Result of `requestAndParseResponse`: the (possibly populated) result
object, the returned error, and the updated client, counter and trace. -/
structure ParseResult where
  res : ResObj
  err : Option GoError
  client : ClientState
  calls : Nat
  events : List Event
deriving DecidableEq, Repr

/-- Result of a facade method: Go returns a pointer to the result object
(`some` = non-nil) together with the error. -/
structure FacadeResult where
  res : Option ResObj
  err : Option GoError
  client : ClientState
  calls : Nat
  events : List Event
deriving DecidableEq, Repr

/-- client.go `requestAndParseToken`: send the credentials to the auth URL,
unmarshal the body into `c.Auth`, stamp the acquisition time. On a send
error the error is returned unmodified and the auth state is untouched; on
an unmarshal error the unmarshal error is returned and the acquisition time
is not stamped (the auth object keeps whatever the partial unmarshal wrote). -/
def requestAndParseToken (env : Env) (now : Nat) (c : ClientState) (k : Nat) :
    TokResult :=
  let ev := Event.acquire c.options.authURL c.credentials
  match env.net k with
  | .fail _ e => { err := some e, client := c, calls := k + 1, events := [ev] }
  | .ok ar =>
    match env.parseToken ar.body c.auth with
    | (auth2, some e) =>
      { err := some e, client := { c with auth := auth2 }, calls := k + 1,
        events := [ev] }
    | (auth2, none) =>
      { err := none,
        client := { c with auth := { auth2 with acquired := some now } },
        calls := k + 1, events := [ev] }

/-- Lines 190-199 of client.go `request`: the send of the resource request
and the single retry on a structured 401 (with a forced re-acquisition in
between). `evs0` is the trace accumulated by the pre-flight expiry check. -/
def requestCore (env : Env) (now : Nat) (c : ClientState) (k : Nat)
    (method url : String) (body : Body) (evs0 : List Event) : ReqResult :=
  let ev := Event.resource c.options.apiBaseURL method url c.auth.accessToken body
  match env.net k with
  | .ok ar =>
    { ar := some ar, err := none, client := c, calls := k + 1,
      events := evs0 ++ [ev] }
  | .fail ar e =>
    if e.is401 then
      let tr := requestAndParseToken env now c (k + 1)
      match tr.err with
      | some te =>
        { ar := none, err := some te, client := tr.client, calls := tr.calls,
          events := evs0 ++ ev :: tr.events }
      | none =>
        let ev2 := Event.resource tr.client.options.apiBaseURL method url
          tr.client.auth.accessToken body
        match env.net tr.calls with
        | .ok ar2 =>
          { ar := some ar2, err := none, client := tr.client,
            calls := tr.calls + 1, events := evs0 ++ ev :: tr.events ++ [ev2] }
        | .fail ar2 e2 =>
          { ar := ar2, err := some e2, client := tr.client,
            calls := tr.calls + 1, events := evs0 ++ ev :: tr.events ++ [ev2] }
    else
      { ar := ar, err := some e, client := c, calls := k + 1,
        events := evs0 ++ [ev] }

/-- client.go `request`: pre-flight expiry check with token acquisition (its
failure propagated immediately, no resource request sent), then the send and
single-retry logic of `requestCore`. -/
def request (env : Env) (now : Nat) (c : ClientState) (k : Nat)
    (method url : String) (body : Body) : ReqResult :=
  if c.auth.accessTokenExpired now then
    let tr := requestAndParseToken env now c k
    match tr.err with
    | some e =>
      { ar := none, err := some e, client := tr.client, calls := tr.calls,
        events := tr.events }
    | none => requestCore env now tr.client tr.calls method url body tr.events
  else
    requestCore env now c k method url body []

/-- client.go `requestAndParseResponse`: on an error with a non-nil response
the body is unmarshalled into the result object best-effort (that unmarshal's
own error is discarded) and the original error is returned; on success the
body is unmarshalled and an unmarshal failure is itself returned as the
error. The `(err = none, ar = none)` branch never arises from `request`
(Go would dereference a nil pointer there); it returns the object unchanged. -/
def requestAndParseResponse (env : Env) (now : Nat) (c : ClientState) (k : Nat)
    (method url : String) (body : Body) (resObj : ResObj) : ParseResult :=
  let r := request env now c k method url body
  match r.err with
  | some e =>
    match r.ar with
    | some a =>
      { res := (env.unmarshalRes a.body resObj).1, err := some e,
        client := r.client, calls := r.calls, events := r.events }
    | none =>
      { res := resObj, err := some e, client := r.client, calls := r.calls,
        events := r.events }
  | none =>
    match r.ar with
    | some a =>
      match env.unmarshalRes a.body resObj with
      | (res2, some pe) =>
        { res := res2, err := some pe, client := r.client, calls := r.calls,
          events := r.events }
      | (res2, none) =>
        { res := res2, err := none, client := r.client, calls := r.calls,
          events := r.events }
    | none =>
      { res := resObj, err := none, client := r.client, calls := r.calls,
        events := r.events }

/-- Shared shape of every resource facade method: allocate a fresh result
object, delegate to `requestAndParseResponse`, return the (non-nil) object
and the error. -/
def facadeCall (env : Env) (now : Nat) (c : ClientState) (k : Nat)
    (method url : String) (body : Body) : FacadeResult :=
  let r := requestAndParseResponse env now c k method url body ResObj.empty
  { res := some r.res, err := r.err, client := r.client, calls := r.calls,
    events := r.events }

/-- client.go `CreateProject`. -/
def CreateProject (env : Env) (now : Nat) (c : ClientState) (k : Nat)
    (project : CreateUpdateProjectCriteria) : FacadeResult :=
  facadeCall env now c k "POST" "/projects" (Body.project project)

/-- client.go `UpdateProject`. -/
def UpdateProject (env : Env) (now : Nat) (c : ClientState) (k : Nat)
    (project : CreateUpdateProjectCriteria) : FacadeResult :=
  facadeCall env now c k "POST" ("/projects/" ++ project.extProjectID)
    (Body.project project)

/-- client.go `BuyProject`. -/
def BuyProject (env : Env) (now : Nat) (c : ClientState) (k : Nat)
    (extProjectID : String) (buy : String) : FacadeResult :=
  facadeCall env now c k "POST" ("/projects/" ++ extProjectID ++ "/buy")
    (Body.buy buy)

/-- client.go `CloseProject`. -/
def CloseProject (env : Env) (now : Nat) (c : ClientState) (k : Nat)
    (extProjectID : String) : FacadeResult :=
  facadeCall env now c k "POST" ("/projects/" ++ extProjectID ++ "/close")
    Body.empty

/-- client.go `GetAllProjects`. -/
def GetAllProjects (env : Env) (now : Nat) (c : ClientState) (k : Nat) :
    FacadeResult :=
  facadeCall env now c k "GET" "/projects" Body.empty

/-- client.go `GetProjectBy`. -/
def GetProjectBy (env : Env) (now : Nat) (c : ClientState) (k : Nat)
    (extProjectID : String) : FacadeResult :=
  facadeCall env now c k "GET" ("/projects/" ++ extProjectID) Body.empty

/-- client.go `GetProjectReport`. -/
def GetProjectReport (env : Env) (now : Nat) (c : ClientState) (k : Nat)
    (extProjectID : String) : FacadeResult :=
  facadeCall env now c k "GET" ("/projects/" ++ extProjectID ++ "/report")
    Body.empty

/-- client.go `AddLineItem`. -/
def AddLineItem (env : Env) (now : Nat) (c : ClientState) (k : Nat)
    (extProjectID : String) (lineItem : String) : FacadeResult :=
  facadeCall env now c k "POST" ("/projects/" ++ extProjectID ++ "/lineItems")
    (Body.lineItem lineItem)

/-- client.go `UpdateLineItem`. -/
def UpdateLineItem (env : Env) (now : Nat) (c : ClientState) (k : Nat)
    (extProjectID extLineItemID : String) (lineItem : String) : FacadeResult :=
  facadeCall env now c k "POST"
    ("/projects/" ++ extProjectID ++ "/lineItems/" ++ extLineItemID)
    (Body.lineItem lineItem)

/-- client.go `ChangeLineItemState`. -/
def ChangeLineItemState (env : Env) (now : Nat) (c : ClientState) (k : Nat)
    (extProjectID extLineItemID : String) (action : Action) : FacadeResult :=
  facadeCall env now c k "POST"
    ("/projects/" ++ extProjectID ++ "/lineItems/" ++ extLineItemID ++ "/" ++
      action) Body.empty

/-- client.go `GetAllLineItems`. -/
def GetAllLineItems (env : Env) (now : Nat) (c : ClientState) (k : Nat)
    (extProjectID : String) : FacadeResult :=
  facadeCall env now c k "GET" ("/projects/" ++ extProjectID ++ "/lineItems")
    Body.empty

/-- client.go `GetLineItemBy`. -/
def GetLineItemBy (env : Env) (now : Nat) (c : ClientState) (k : Nat)
    (extProjectID extLineItemID : String) : FacadeResult :=
  facadeCall env now c k "GET"
    ("/projects/" ++ extProjectID ++ "/lineItems/" ++ extLineItemID) Body.empty

/-- client.go `GetFeasibility`. -/
def GetFeasibility (env : Env) (now : Nat) (c : ClientState) (k : Nat)
    (extProjectID : String) : FacadeResult :=
  facadeCall env now c k "GET" ("/projects/" ++ extProjectID ++ "/feasibility")
    Body.empty

/-- client.go `GetCountries`. -/
def GetCountries (env : Env) (now : Nat) (c : ClientState) (k : Nat) :
    FacadeResult :=
  facadeCall env now c k "GET" "/countries" Body.empty

/-- client.go `GetAttributes`. -/
def GetAttributes (env : Env) (now : Nat) (c : ClientState) (k : Nat)
    (countryCode languageCode : String) : FacadeResult :=
  facadeCall env now c k "GET" ("/attributes/" ++ countryCode ++ "/" ++
    languageCode) Body.empty

/-- client.go `GetSurveyTopics`. -/
def GetSurveyTopics (env : Env) (now : Nat) (c : ClientState) (k : Nat) :
    FacadeResult :=
  facadeCall env now c k "GET" "/categories/surveyTopics" Body.empty

/-- Result of `GetAuth`: the returned token value, the error, and the updated
client, counter and trace. -/
structure AuthResult where
  auth : TokenResponse
  err : Option GoError
  client : ClientState
  calls : Nat
  events : List Event
deriving DecidableEq, Repr

/-- client.go `GetAuth`: acquire a token; on failure return the zero token
value and the error, otherwise the freshly stored token. -/
def GetAuth (env : Env) (now : Nat) (c : ClientState) (k : Nat) : AuthResult :=
  let tr := requestAndParseToken env now c k
  match tr.err with
  | some e =>
    { auth := TokenResponse.empty, err := some e, client := tr.client,
      calls := tr.calls, events := tr.events }
  | none =>
    { auth := tr.client.auth, err := none, client := tr.client,
      calls := tr.calls, events := tr.events }

/-- client.go `NewClient`: defaults are used when options are nil; the auth
field starts as the zero value. -/
def NewClient (clientID username passsword : String)
    (options : Option ClientOptions) : ClientState :=
  let opts := (match options with
    | none => { apiBaseURL := defaultAPIBaseURL, authURL := defaultAuthURL }
    | some o => o)
  { credentials := { clientID := clientID,
                     username := username,
                     password := passsword },
    auth := TokenResponse.empty,
    options := opts }

/-! ### Concrete test fixtures used to instantiate the theorems -/

/-- Test credentials. -/
def wCredentials : TokenRequest :=
  { clientID := "cid", username := "user", password := "pw" }

/-- Test options. -/
def wOptions : ClientOptions :=
  { apiBaseURL := "https://api.example", authURL := "https://auth.example" }

/-- A client whose cached token is unexpired at time 100 (acquired at 100,
expiring 50 later). -/
def cFresh : ClientState :=
  { credentials := wCredentials,
    auth := { accessToken := "tokA", expiresIn := 50, acquired := some 100 },
    options := wOptions }

/-- A freshly constructed client: zero-value auth, hence an expired token. -/
def cStale : ClientState :=
  { credentials := wCredentials, auth := TokenResponse.empty,
    options := wOptions }

/-- Test token unmarshaller: "authbody" parses to a token, everything else is
a malformed auth body. -/
def wParseToken : String → TokenResponse → TokenResponse × Option GoError :=
  fun s a =>
    if s = "authbody" then ({ a with accessToken := "tokB", expiresIn := 60 }, none)
    else (a, some (GoError.other "badtoken"))

/-- Test resource unmarshaller: "errbody" partially populates the object and
reports a parse failure, everything else populates it successfully. -/
def wUnmarshalRes : String → ResObj → ResObj × Option GoError :=
  fun s r =>
    if s = "errbody" then
      ({ fields := ("error", "true") :: r.fields }, some (GoError.other "parsefail"))
    else ({ fields := ("ok", "true") :: r.fields }, none)

/-- Test environment: the n-th network call draws from the given list
(successful "okbody" responses once the list runs out), with the test
unmarshallers. -/
def envOfList (l : List SendOutcome) : Env :=
  { net := fun k => l.getD k (SendOutcome.ok { body := "okbody" }),
    parseToken := wParseToken,
    unmarshalRes := wUnmarshalRes }

/-- Environment whose first resource call fails with a structured 401 and
whose auth endpoint then answers with a parseable token body. -/
def env401 : Env := envOfList
  [SendOutcome.fail (some { body := "errbody" })
    (GoError.errorResponse 401 "unauthorized"),
   SendOutcome.ok { body := "authbody" }]

/-- Environment whose first resource call fails with a structured 403. -/
def env403 : Env := envOfList
  [SendOutcome.fail (some { body := "errbody" })
    (GoError.errorResponse 403 "forbidden")]

/-- Environment whose first resource call fails with a structured 401 and
whose auth endpoint is then unreachable. -/
def envReacqFail : Env := envOfList
  [SendOutcome.fail (some { body := "errbody" })
    (GoError.errorResponse 401 "unauthorized"),
   SendOutcome.fail none (GoError.other "authdown")]

/-- Environment whose first call (an auth call) fails at the transport. -/
def envAuthDown : Env := envOfList
  [SendOutcome.fail none (GoError.other "authdown")]

/-- Environment whose first call (an auth call) succeeds at the transport
but returns a body without a parseable token field. -/
def envAuthGarbage : Env := envOfList [SendOutcome.ok { body := "garbage" }]

/-- Environment whose first call (an auth call) returns a parseable token. -/
def envAuthOk : Env := envOfList [SendOutcome.ok { body := "authbody" }]

/-- Environment whose first resource call fails with a non-structured error
that still carries a response body. -/
def envErrBody : Env := envOfList
  [SendOutcome.fail (some { body := "errbody" }) (GoError.other "boom")]

/-- The token value `wParseToken` produces from "authbody" for the cached
auth state of `cFresh`. -/
def wTokB : TokenResponse :=
  { accessToken := "tokB", expiresIn := 60, acquired := some 100 }

/-! ### Unfolding lemmas for the token manager and the dispatcher core -/

/-- The token-acquisition call issues exactly one network request, to the
auth URL with the credentials; if the send fails, the send error is returned
unmodified and the client is untouched. -/
theorem requestAndParseToken_net_fail (env : Env) (now : Nat) (c : ClientState)
    (k : Nat) (a : Option APIResponse) (e : GoError)
    (h : env.net k = SendOutcome.fail a e) :
    requestAndParseToken env now c k =
      { err := some e, client := c, calls := k + 1,
        events := [Event.acquire c.options.authURL c.credentials] } := by
  simp [requestAndParseToken, h]

/-- If the auth send succeeds but unmarshalling the body fails, the unmarshal
error is returned, the auth field keeps the partial unmarshal result, and no
acquisition time is stamped. -/
theorem requestAndParseToken_parse_fail (env : Env) (now : Nat)
    (c : ClientState) (k : Nat) (ar : APIResponse) (auth2 : TokenResponse)
    (e : GoError) (h1 : env.net k = SendOutcome.ok ar)
    (h2 : env.parseToken ar.body c.auth = (auth2, some e)) :
    requestAndParseToken env now c k =
      { err := some e, client := { c with auth := auth2 }, calls := k + 1,
        events := [Event.acquire c.options.authURL c.credentials] } := by
  simp [requestAndParseToken, h1, h2]

/-- If the auth send and the unmarshal both succeed, the parsed token with a
fresh acquisition stamp is stored and no error is returned. -/
theorem requestAndParseToken_ok (env : Env) (now : Nat) (c : ClientState)
    (k : Nat) (ar : APIResponse) (auth2 : TokenResponse)
    (h1 : env.net k = SendOutcome.ok ar)
    (h2 : env.parseToken ar.body c.auth = (auth2, none)) :
    requestAndParseToken env now c k =
      { err := none,
        client := { c with auth := { auth2 with acquired := some now } },
        calls := k + 1,
        events := [Event.acquire c.options.authURL c.credentials] } := by
  simp [requestAndParseToken, h1, h2]

/-- The token-acquisition call never touches credentials or options, and its
trace is always exactly one acquisition event. -/
theorem requestAndParseToken_frame (env : Env) (now : Nat) (c : ClientState)
    (k : Nat) :
    (requestAndParseToken env now c k).client.credentials = c.credentials ∧
    (requestAndParseToken env now c k).client.options = c.options ∧
    (requestAndParseToken env now c k).events =
      [Event.acquire c.options.authURL c.credentials] := by
  unfold requestAndParseToken
  cases h : env.net k with
  | fail a e => simp
  | ok ar =>
    rcases h2 : env.parseToken ar.body c.auth with ⟨auth2, oe⟩
    cases oe <;> simp [h2]

/-- A successful send returns the response with no error, no retry, and no
state change. -/
theorem requestCore_ok (env : Env) (now : Nat) (c : ClientState) (k : Nat)
    (method url : String) (body : Body) (evs0 : List Event) (ar : APIResponse)
    (h : env.net k = SendOutcome.ok ar) :
    requestCore env now c k method url body evs0 =
      { ar := some ar, err := none, client := c, calls := k + 1,
        events := evs0 ++ [Event.resource c.options.apiBaseURL method url
          c.auth.accessToken body] } := by
  simp [requestCore, h]

/-- A send failing with anything but a structured 401 is returned as-is:
no re-acquisition, no retry, no state change. -/
theorem requestCore_fail_non401 (env : Env) (now : Nat) (c : ClientState)
    (k : Nat) (method url : String) (body : Body) (evs0 : List Event)
    (ar : Option APIResponse) (e : GoError)
    (h : env.net k = SendOutcome.fail ar e) (h401 : e.is401 = false) :
    requestCore env now c k method url body evs0 =
      { ar := ar, err := some e, client := c, calls := k + 1,
        events := evs0 ++ [Event.resource c.options.apiBaseURL method url
          c.auth.accessToken body] } := by
  simp [requestCore, h, h401]

/-- The dispatcher core never touches credentials or options. -/
theorem requestCore_frame (env : Env) (now : Nat) (c : ClientState) (k : Nat)
    (method url : String) (body : Body) (evs0 : List Event) :
    (requestCore env now c k method url body evs0).client.credentials =
      c.credentials ∧
    (requestCore env now c k method url body evs0).client.options =
      c.options := by
  rcases htok : requestAndParseToken env now c (k + 1) with ⟨terr, tc, tk, tev⟩
  have hf := requestAndParseToken_frame env now c (k + 1)
  rw [htok] at hf
  cases h : env.net k with
  | ok ar => simp [requestCore, h]
  | fail ar e =>
    cases h4 : e.is401 with
    | false => simp [requestCore, h, h4]
    | true =>
      cases terr with
      | some te =>
        simp only [requestCore, h, h4, htok]
        exact ⟨hf.1, hf.2.1⟩
      | none =>
        cases h5 : env.net tk with
        | ok a2 =>
          simp only [requestCore, h, h4, htok, h5]
          exact ⟨hf.1, hf.2.1⟩
        | fail a2 e2 =>
          simp only [requestCore, h, h4, htok, h5]
          exact ⟨hf.1, hf.2.1⟩

/-- The dispatcher core's trace extends the accumulated pre-flight trace:
whatever holds of every event of the core's trace holds of every pre-flight
event. -/
theorem requestCore_events_all (env : Env) (now : Nat) (c : ClientState)
    (k : Nat) (method url : String) (body : Body) (evs0 : List Event)
    (p : Event → Bool)
    (h : ((requestCore env now c k method url body evs0).events.all p) = true) :
    evs0.all p = true := by
  rcases htok : requestAndParseToken env now c (k + 1) with ⟨terr, tc, tk, tev⟩
  cases hn : env.net k with
  | ok ar => simp_all [requestCore, hn]
  | fail ar e =>
    cases h4 : e.is401 with
    | false => simp_all [requestCore, hn, h4]
    | true =>
      cases terr with
      | some te => simp_all [requestCore, hn, h4, htok]
      | none =>
        cases h5 : env.net tk with
        | ok a2 => simp_all [requestCore, hn, h4, htok, h5]
        | fail a2 e2 => simp_all [requestCore, hn, h4, htok, h5]

/-- If the core's run issued no acquisition call, the client is unchanged. -/
theorem requestCore_no_acquire (env : Env) (now : Nat) (c : ClientState)
    (k : Nat) (method url : String) (body : Body)
    (h : ((requestCore env now c k method url body []).events.all
      fun ev => !ev.isAcquire) = true) :
    (requestCore env now c k method url body []).client = c := by
  rcases htok : requestAndParseToken env now c (k + 1) with ⟨terr, tc, tk, tev⟩
  have hf := requestAndParseToken_frame env now c (k + 1)
  rw [htok] at hf
  have hev : tev = [Event.acquire c.options.authURL c.credentials] := hf.2.2
  cases hn : env.net k with
  | ok ar => simp [requestCore, hn]
  | fail ar e =>
    cases h4 : e.is401 with
    | false => simp [requestCore, hn, h4]
    | true =>
      cases terr with
      | some te =>
        simp [requestCore, hn, h4, htok, hev, Event.isAcquire] at h
      | none =>
        cases h5 : env.net tk with
        | ok a2 =>
          simp [requestCore, hn, h4, htok, h5, hev, Event.isAcquire] at h
        | fail a2 e2 =>
          simp [requestCore, hn, h4, htok, h5, hev, Event.isAcquire] at h

/-- With an unexpired cached token, `request` goes straight to the send
logic with an empty pre-flight trace. -/
theorem request_not_expired (env : Env) (now : Nat) (c : ClientState) (k : Nat)
    (method url : String) (body : Body)
    (h : c.auth.accessTokenExpired now = false) :
    request env now c k method url body =
      requestCore env now c k method url body [] := by
  simp [request, h]

/-- With a missing or expired cached token and a failing pre-flight
acquisition, `request` returns the acquisition error and its trace is the
lone acquisition call: no resource request is sent. -/
theorem request_expired_tok_fail (env : Env) (now : Nat) (c : ClientState)
    (k : Nat) (method url : String) (body : Body) (e : GoError)
    (hexp : c.auth.accessTokenExpired now = true)
    (herr : (requestAndParseToken env now c k).err = some e) :
    request env now c k method url body =
      { ar := none, err := some e,
        client := (requestAndParseToken env now c k).client,
        calls := (requestAndParseToken env now c k).calls,
        events := [Event.acquire c.options.authURL c.credentials] } := by
  have hf := requestAndParseToken_frame env now c k
  rcases htok : requestAndParseToken env now c k with ⟨terr, tc, tk, tev⟩
  rw [htok] at hf herr
  simp only at herr
  simp [request, hexp, htok, herr, hf.2.2.symm]

/-- With a missing or expired cached token and a successful pre-flight
acquisition, `request` proceeds to the send logic from the refreshed client,
with the acquisition as the accumulated trace. -/
theorem request_expired_tok_ok (env : Env) (now : Nat) (c : ClientState)
    (k : Nat) (method url : String) (body : Body)
    (hexp : c.auth.accessTokenExpired now = true)
    (herr : (requestAndParseToken env now c k).err = none) :
    request env now c k method url body =
      requestCore env now (requestAndParseToken env now c k).client
        (requestAndParseToken env now c k).calls method url body
        (requestAndParseToken env now c k).events := by
  rcases htok : requestAndParseToken env now c k with ⟨terr, tc, tk, tev⟩
  rw [htok] at herr
  simp only at herr
  simp [request, hexp, htok, herr]

/-- The dispatcher never touches credentials or options. -/
theorem request_frame (env : Env) (now : Nat) (c : ClientState) (k : Nat)
    (method url : String) (body : Body) :
    (request env now c k method url body).client.credentials =
      c.credentials ∧
    (request env now c k method url body).client.options = c.options := by
  have hf := requestAndParseToken_frame env now c k
  cases hexp : c.auth.accessTokenExpired now with
  | false =>
    rw [request_not_expired env now c k method url body hexp]
    exact requestCore_frame env now c k method url body []
  | true =>
    cases herr : (requestAndParseToken env now c k).err with
    | some e =>
      rw [request_expired_tok_fail env now c k method url body e hexp herr]
      exact ⟨hf.1, hf.2.1⟩
    | none =>
      rw [request_expired_tok_ok env now c k method url body hexp herr]
      have hc := requestCore_frame env now (requestAndParseToken env now c k).client
        (requestAndParseToken env now c k).calls method url body
        (requestAndParseToken env now c k).events
      exact ⟨hc.1.trans hf.1, hc.2.trans hf.2.1⟩

/-- If a dispatcher run issued no acquisition call, the cached auth token is
unchanged: only the token-acquisition routine mutates it. -/
theorem request_no_acquire (env : Env) (now : Nat) (c : ClientState) (k : Nat)
    (method url : String) (body : Body)
    (h : ((request env now c k method url body).events.all
      fun ev => !ev.isAcquire) = true) :
    (request env now c k method url body).client.auth = c.auth := by
  have hf := requestAndParseToken_frame env now c k
  cases hexp : c.auth.accessTokenExpired now with
  | false =>
    rw [request_not_expired env now c k method url body hexp] at h ⊢
    rw [requestCore_no_acquire env now c k method url body h]
  | true =>
    cases herr : (requestAndParseToken env now c k).err with
    | some e =>
      rw [request_expired_tok_fail env now c k method url body e hexp herr] at h
      simp [Event.isAcquire] at h
    | none =>
      rw [request_expired_tok_ok env now c k method url body hexp herr] at h
      have := requestCore_events_all env now
        (requestAndParseToken env now c k).client
        (requestAndParseToken env now c k).calls method url body
        (requestAndParseToken env now c k).events
        (fun ev => !ev.isAcquire) h
      rw [hf.2.2] at this
      simp [Event.isAcquire] at this

/-- The first event of the dispatcher core's trace, after the pre-flight
trace, is always the resource request itself (built from the client's base
URL and cached token). -/
theorem requestCore_events_shape (env : Env) (now : Nat) (c : ClientState)
    (k : Nat) (method url : String) (body : Body) (evs0 : List Event) :
    ∃ rest, (requestCore env now c k method url body evs0).events =
      evs0 ++ Event.resource c.options.apiBaseURL method url
        c.auth.accessToken body :: rest := by
  rcases htok : requestAndParseToken env now c (k + 1) with ⟨terr, tc, tk, tev⟩
  cases hn : env.net k with
  | ok ar => exact ⟨[], by simp [requestCore, hn]⟩
  | fail ar e =>
    cases h4 : e.is401 with
    | false => exact ⟨[], by simp [requestCore, hn, h4]⟩
    | true =>
      cases terr with
      | some te => exact ⟨tev, by simp [requestCore, hn, h4, htok]⟩
      | none =>
        cases h5 : env.net tk with
        | ok a2 =>
          exact ⟨tev ++ [Event.resource tc.options.apiBaseURL method url
            tc.auth.accessToken body], by simp [requestCore, hn, h4, htok, h5]⟩
        | fail a2 e2 =>
          exact ⟨tev ++ [Event.resource tc.options.apiBaseURL method url
            tc.auth.accessToken body], by simp [requestCore, hn, h4, htok, h5]⟩

/-- With no pre-flight trace, the core's first network call is the resource
request. -/
theorem requestCore_events_head (env : Env) (now : Nat) (c : ClientState)
    (k : Nat) (method url : String) (body : Body) :
    (requestCore env now c k method url body []).events.head? =
      some (Event.resource c.options.apiBaseURL method url
        c.auth.accessToken body) := by
  obtain ⟨rest, hr⟩ := requestCore_events_shape env now c k method url body []
  simp [hr]

/-- `requestAndParseResponse` forwards the client state of the underlying
dispatcher call unchanged. -/
theorem requestAndParseResponse_client (env : Env) (now : Nat)
    (c : ClientState) (k : Nat) (method url : String) (body : Body)
    (resObj : ResObj) :
    (requestAndParseResponse env now c k method url body resObj).client =
      (request env now c k method url body).client := by
  rcases hr : request env now c k method url body with ⟨rar, rerr, rc, rk, rev⟩
  cases rerr with
  | some e =>
    cases rar with
    | some a => simp [requestAndParseResponse, hr]
    | none => simp [requestAndParseResponse, hr]
  | none =>
    cases rar with
    | some a =>
      rcases hu : env.unmarshalRes a.body resObj with ⟨r2, pe⟩
      cases pe <;> simp [requestAndParseResponse, hr, hu]
    | none => simp [requestAndParseResponse, hr]

/-- A facade call forwards the client state of the dispatcher unchanged. -/
theorem facadeCall_client (env : Env) (now : Nat) (c : ClientState) (k : Nat)
    (method url : String) (body : Body) :
    (facadeCall env now c k method url body).client =
      (request env now c k method url body).client := by
  simp [facadeCall, requestAndParseResponse_client]

/-- A facade call never touches credentials or options. -/
theorem facadeCall_frame (env : Env) (now : Nat) (c : ClientState) (k : Nat)
    (method url : String) (body : Body) :
    (facadeCall env now c k method url body).client.credentials =
      c.credentials ∧
    (facadeCall env now c k method url body).client.options = c.options := by
  rw [facadeCall_client]
  exact request_frame env now c k method url body

/-- A facade call always returns a non-nil result object. -/
theorem facadeCall_res_isSome (env : Env) (now : Nat) (c : ClientState)
    (k : Nat) (method url : String) (body : Body) :
    (facadeCall env now c k method url body).res.isSome = true := rfl

/-- `GetAuth` never touches credentials or options. -/
theorem GetAuth_frame (env : Env) (now : Nat) (c : ClientState) (k : Nat) :
    (GetAuth env now c k).client.credentials = c.credentials ∧
    (GetAuth env now c k).client.options = c.options := by
  have hf := requestAndParseToken_frame env now c k
  rcases htok : requestAndParseToken env now c k with ⟨terr, tc, tk, tev⟩
  rw [htok] at hf
  cases terr with
  | some e => simpa [GetAuth, htok] using ⟨hf.1, hf.2.1⟩
  | none => simpa [GetAuth, htok] using ⟨hf.1, hf.2.1⟩

/-! ### The claims -/

/-- C7: constructing a client with empty configuration (nil options) yields
the default API base URL `https://api.researchnow.com/sample/v1` and the
default auth URL `https://api.researchnow.com/auth/v1/token/password`. -/
theorem claim_C7_default_construction (clientID username passsword : String) :
    (NewClient clientID username passsword none).options.apiBaseURL =
      "https://api.researchnow.com/sample/v1" ∧
    (NewClient clientID username passsword none).options.authURL =
      "https://api.researchnow.com/auth/v1/token/password" :=
  ⟨rfl, rfl⟩

/-- C1: when the first send of a resource call fails with a structured 401
and the forced re-acquisition succeeds, the dispatcher performs exactly one
re-acquisition and exactly one retry of the same request (same method, url
and body, under the new token), and the second attempt's outcome — success
or failure, including a second 401 — is returned to the caller unchanged,
with no further network call. -/
theorem claim_C1_single_retry_on_401 (env : Env) (now : Nat) (c : ClientState)
    (k : Nat) (method url : String) (body : Body) :
    (∀ a1 s arT t,
      c.auth.accessTokenExpired now = false →
      env.net k = SendOutcome.fail a1 (GoError.errorResponse 401 s) →
      env.net (k + 1) = SendOutcome.ok arT →
      env.parseToken arT.body c.auth = (t, none) →
      request env now c k method url body =
        { ar := (env.net (k + 2)).toAr, err := (env.net (k + 2)).toErr,
          client := { c with auth := { t with acquired := some now } },
          calls := k + 3,
          events := [Event.resource c.options.apiBaseURL method url
              c.auth.accessToken body,
            Event.acquire c.options.authURL c.credentials,
            Event.resource c.options.apiBaseURL method url
              t.accessToken body] }) ∧
    (∀ arP tP a1 s arT t,
      c.auth.accessTokenExpired now = true →
      env.net k = SendOutcome.ok arP →
      env.parseToken arP.body c.auth = (tP, none) →
      env.net (k + 1) = SendOutcome.fail a1 (GoError.errorResponse 401 s) →
      env.net (k + 2) = SendOutcome.ok arT →
      env.parseToken arT.body { tP with acquired := some now } = (t, none) →
      request env now c k method url body =
        { ar := (env.net (k + 3)).toAr, err := (env.net (k + 3)).toErr,
          client := { c with auth := { t with acquired := some now } },
          calls := k + 4,
          events := [Event.acquire c.options.authURL c.credentials,
            Event.resource c.options.apiBaseURL method url
              tP.accessToken body,
            Event.acquire c.options.authURL c.credentials,
            Event.resource c.options.apiBaseURL method url
              t.accessToken body] }) := by
  constructor
  · intro a1 s arT t hexp h1 h2 h3
    rw [request_not_expired env now c k method url body hexp]
    have htok := requestAndParseToken_ok env now c (k + 1) arT t h2 h3
    cases h5 : env.net (k + 2) with
    | ok ar2 =>
      simp [requestCore, h1, GoError.is401, htok, SendOutcome.toAr,
        SendOutcome.toErr, h5, Nat.add_assoc]
    | fail ar2 e2 =>
      simp [requestCore, h1, GoError.is401, htok, SendOutcome.toAr,
        SendOutcome.toErr, h5, Nat.add_assoc]
  · intro arP tP a1 s arT t hexp h0 h0p h1 h2 h3
    have htok0 := requestAndParseToken_ok env now c k arP tP h0 h0p
    have herr0 : (requestAndParseToken env now c k).err = none := by rw [htok0]
    rw [request_expired_tok_ok env now c k method url body hexp herr0, htok0]
    have htok2 := requestAndParseToken_ok env now
      { c with auth := { tP with acquired := some now } } (k + 2) arT t h2 h3
    cases h5 : env.net (k + 3) with
    | ok ar2 =>
      simp [requestCore, h1, GoError.is401, htok2, SendOutcome.toAr,
        SendOutcome.toErr, h5, Nat.add_assoc]
    | fail ar2 e2 =>
      simp [requestCore, h1, GoError.is401, htok2, SendOutcome.toAr,
        SendOutcome.toErr, h5, Nat.add_assoc]

/-- Witness for C1 on concrete inputs: a 401 on the first send, a successful
re-acquisition, and the default (successful) outcome of the third call
returned unchanged. -/
theorem claim_C1_single_retry_on_401_w :
    request env401 100 cFresh 0 "GET" "/projects" Body.empty =
      { ar := (env401.net 2).toAr, err := (env401.net 2).toErr,
        client := { cFresh with auth := { wTokB with acquired := some 100 } },
        calls := 3,
        events := [Event.resource cFresh.options.apiBaseURL "GET" "/projects"
            cFresh.auth.accessToken Body.empty,
          Event.acquire cFresh.options.authURL cFresh.credentials,
          Event.resource cFresh.options.apiBaseURL "GET" "/projects"
            wTokB.accessToken Body.empty] } :=
  (claim_C1_single_retry_on_401 env401 100 cFresh 0 "GET" "/projects"
      Body.empty).1
    (some { body := "errbody" }) "unauthorized" { body := "authbody" } wTokB
    (by decide) (by decide) (by decide) (by decide)

/-- C9: when the first send of a resource call fails with a structured 401
and the forced re-acquisition itself fails (at the transport, or because the
auth body is malformed), the dispatcher returns the re-acquisition error —
not the original 401 — and sends no retry request. -/
theorem claim_C9_reacquisition_failure (env : Env) (now : Nat)
    (c : ClientState) (k : Nat) (method url : String) (body : Body) :
    (∀ a1 s a2 e2,
      c.auth.accessTokenExpired now = false →
      env.net k = SendOutcome.fail a1 (GoError.errorResponse 401 s) →
      env.net (k + 1) = SendOutcome.fail a2 e2 →
      request env now c k method url body =
        { ar := none, err := some e2, client := c, calls := k + 2,
          events := [Event.resource c.options.apiBaseURL method url
              c.auth.accessToken body,
            Event.acquire c.options.authURL c.credentials] }) ∧
    (∀ a1 s arT auth2 e,
      c.auth.accessTokenExpired now = false →
      env.net k = SendOutcome.fail a1 (GoError.errorResponse 401 s) →
      env.net (k + 1) = SendOutcome.ok arT →
      env.parseToken arT.body c.auth = (auth2, some e) →
      request env now c k method url body =
        { ar := none, err := some e, client := { c with auth := auth2 },
          calls := k + 2,
          events := [Event.resource c.options.apiBaseURL method url
              c.auth.accessToken body,
            Event.acquire c.options.authURL c.credentials] }) ∧
    (∀ arP tP a1 s a2 e2,
      c.auth.accessTokenExpired now = true →
      env.net k = SendOutcome.ok arP →
      env.parseToken arP.body c.auth = (tP, none) →
      env.net (k + 1) = SendOutcome.fail a1 (GoError.errorResponse 401 s) →
      env.net (k + 2) = SendOutcome.fail a2 e2 →
      request env now c k method url body =
        { ar := none, err := some e2,
          client := { c with auth := { tP with acquired := some now } },
          calls := k + 3,
          events := [Event.acquire c.options.authURL c.credentials,
            Event.resource c.options.apiBaseURL method url
              tP.accessToken body,
            Event.acquire c.options.authURL c.credentials] }) := by
  refine ⟨?_, ?_, ?_⟩
  · intro a1 s a2 e2 hexp h1 h2
    rw [request_not_expired env now c k method url body hexp]
    have htok := requestAndParseToken_net_fail env now c (k + 1) a2 e2 h2
    simp [requestCore, h1, GoError.is401, htok, Nat.add_assoc]
  · intro a1 s arT auth2 e hexp h1 h2 h3
    rw [request_not_expired env now c k method url body hexp]
    have htok := requestAndParseToken_parse_fail env now c (k + 1) arT auth2 e
      h2 h3
    simp [requestCore, h1, GoError.is401, htok, Nat.add_assoc]
  · intro arP tP a1 s a2 e2 hexp h0 h0p h1 h2
    have htok0 := requestAndParseToken_ok env now c k arP tP h0 h0p
    have herr0 : (requestAndParseToken env now c k).err = none := by rw [htok0]
    rw [request_expired_tok_ok env now c k method url body hexp herr0, htok0]
    have htok2 := requestAndParseToken_net_fail env now
      { c with auth := { tP with acquired := some now } } (k + 2) a2 e2 h2
    simp [requestCore, h1, GoError.is401, htok2, Nat.add_assoc]

/-- Witness for C9 on concrete inputs: a 401 followed by an unreachable auth
endpoint yields the acquisition transport error and a two-call trace. -/
theorem claim_C9_reacquisition_failure_w :
    request envReacqFail 100 cFresh 0 "GET" "/projects" Body.empty =
      { ar := none, err := some (GoError.other "authdown"), client := cFresh,
        calls := 2,
        events := [Event.resource cFresh.options.apiBaseURL "GET" "/projects"
            cFresh.auth.accessToken Body.empty,
          Event.acquire cFresh.options.authURL cFresh.credentials] } :=
  (claim_C9_reacquisition_failure envReacqFail 100 cFresh 0 "GET" "/projects"
      Body.empty).1
    (some { body := "errbody" }) "unauthorized" none (GoError.other "authdown")
    (by decide) (by decide) (by decide)

/-- C4: when the send of a resource call fails with any error other than a
structured 401 (a structured 403 or other status, or a transport failure),
the dispatcher returns that error immediately: no token re-acquisition, no
retry. The first conjunct covers a call with an unexpired cached token, the
second a call whose pre-flight acquisition succeeded first. -/
theorem claim_C4_non401_no_retry (env : Env) (now : Nat) (c : ClientState)
    (k : Nat) (method url : String) (body : Body) (ar : Option APIResponse)
    (e : GoError) (h401 : e.is401 = false) :
    (c.auth.accessTokenExpired now = false →
      env.net k = SendOutcome.fail ar e →
      request env now c k method url body =
        { ar := ar, err := some e, client := c, calls := k + 1,
          events := [Event.resource c.options.apiBaseURL method url
            c.auth.accessToken body] }) ∧
    (∀ arT t, c.auth.accessTokenExpired now = true →
      env.net k = SendOutcome.ok arT →
      env.parseToken arT.body c.auth = (t, none) →
      env.net (k + 1) = SendOutcome.fail ar e →
      request env now c k method url body =
        { ar := ar, err := some e,
          client := { c with auth := { t with acquired := some now } },
          calls := k + 2,
          events := [Event.acquire c.options.authURL c.credentials,
            Event.resource c.options.apiBaseURL method url
              t.accessToken body] }) := by
  constructor
  · intro hexp h1
    rw [request_not_expired env now c k method url body hexp]
    simp [requestCore, h1, h401]
  · intro arT t hexp h1 h2 h3
    have htok := requestAndParseToken_ok env now c k arT t h1 h2
    have herr : (requestAndParseToken env now c k).err = none := by
      rw [htok]
    rw [request_expired_tok_ok env now c k method url body hexp herr, htok]
    simp [requestCore, h3, h401]

/-- Witness for C4 on concrete inputs: a structured 403 with an unexpired
token is returned immediately after a single resource call. -/
theorem claim_C4_non401_no_retry_w :
    request env403 100 cFresh 0 "GET" "/projects" Body.empty =
      { ar := some { body := "errbody" },
        err := some (GoError.errorResponse 403 "forbidden"), client := cFresh,
        calls := 1,
        events := [Event.resource cFresh.options.apiBaseURL "GET" "/projects"
          cFresh.auth.accessToken Body.empty] } :=
  (claim_C4_non401_no_retry env403 100 cFresh 0 "GET" "/projects" Body.empty
      (some { body := "errbody" }) (GoError.errorResponse 403 "forbidden")
      (by decide)).1
    (by decide) (by decide)

/-- C2: if the cached token is present and unexpired (per the client-side
time-based check) the dispatcher's first network call is the resource
request itself — no acquisition precedes it; if the token is absent or
expired (and the pre-flight acquisition succeeds, so that a resource request
is sent at all), exactly one acquisition call precedes the resource
request. -/
theorem claim_C2_acquire_iff_expired (env : Env) (now : Nat) (c : ClientState)
    (k : Nat) (method url : String) (body : Body) :
    (c.auth.accessTokenExpired now = false →
      (request env now c k method url body).events.head? =
        some (Event.resource c.options.apiBaseURL method url
          c.auth.accessToken body)) ∧
    (c.auth.accessTokenExpired now = true →
      (requestAndParseToken env now c k).err = none →
      ∃ rest, (request env now c k method url body).events =
        Event.acquire c.options.authURL c.credentials ::
        Event.resource c.options.apiBaseURL method url
          (requestAndParseToken env now c k).client.auth.accessToken body ::
        rest) := by
  constructor
  · intro hexp
    rw [request_not_expired env now c k method url body hexp]
    exact requestCore_events_head env now c k method url body
  · intro hexp herr
    rw [request_expired_tok_ok env now c k method url body hexp herr]
    have hf := requestAndParseToken_frame env now c k
    obtain ⟨rest, hr⟩ := requestCore_events_shape env now
      (requestAndParseToken env now c k).client
      (requestAndParseToken env now c k).calls method url body
      (requestAndParseToken env now c k).events
    refine ⟨rest, ?_⟩
    rw [hr, hf.2.2, hf.2.1]
    simp

/-- Witness for C2, both cases on concrete inputs: an unexpired client sends
the resource request first; a stale client acquires once, then sends. -/
theorem claim_C2_acquire_iff_expired_w :
    (request envAuthOk 100 cFresh 0 "GET" "/projects" Body.empty).events.head? =
      some (Event.resource cFresh.options.apiBaseURL "GET" "/projects"
        cFresh.auth.accessToken Body.empty) ∧
    (∃ rest,
      (request envAuthOk 100 cStale 0 "GET" "/projects" Body.empty).events =
        Event.acquire cStale.options.authURL cStale.credentials ::
        Event.resource cStale.options.apiBaseURL "GET" "/projects"
          (requestAndParseToken envAuthOk 100 cStale 0).client.auth.accessToken
          Body.empty :: rest) :=
  ⟨(claim_C2_acquire_iff_expired envAuthOk 100 cFresh 0 "GET" "/projects"
      Body.empty).1 (by decide),
   (claim_C2_acquire_iff_expired envAuthOk 100 cStale 0 "GET" "/projects"
      Body.empty).2 (by decide) (by decide)⟩

/-- C3: when the pre-flight token acquisition of a resource call fails (for
any reason the token manager reports), the dispatcher returns that
acquisition error unmodified, and its trace is the lone acquisition call —
no resource request is sent. -/
theorem claim_C3_preflight_failure (env : Env) (now : Nat) (c : ClientState)
    (k : Nat) (method url : String) (body : Body) (e : GoError)
    (hexp : c.auth.accessTokenExpired now = true)
    (herr : (requestAndParseToken env now c k).err = some e) :
    request env now c k method url body =
      { ar := none, err := some e,
        client := (requestAndParseToken env now c k).client,
        calls := (requestAndParseToken env now c k).calls,
        events := [Event.acquire c.options.authURL c.credentials] } ∧
    ((request env now c k method url body).events.all
      fun ev => !ev.isResource) = true := by
  have h := request_expired_tok_fail env now c k method url body e hexp herr
  refine ⟨h, ?_⟩
  rw [h]
  simp [Event.isResource]

/-- Witness for C3 on concrete inputs: a stale client whose auth endpoint is
unreachable gets the transport error back and sends nothing else. -/
theorem claim_C3_preflight_failure_w :
    request envAuthDown 100 cStale 0 "GET" "/projects" Body.empty =
      { ar := none, err := some (GoError.other "authdown"),
        client := (requestAndParseToken envAuthDown 100 cStale 0).client,
        calls := (requestAndParseToken envAuthDown 100 cStale 0).calls,
        events := [Event.acquire cStale.options.authURL cStale.credentials] } ∧
    ((request envAuthDown 100 cStale 0 "GET" "/projects" Body.empty).events.all
      fun ev => !ev.isResource) = true :=
  claim_C3_preflight_failure envAuthDown 100 cStale 0 "GET" "/projects"
    Body.empty (GoError.other "authdown") (by decide) (by decide)

/-- C6: when the token-acquisition HTTP call succeeds but the auth body has
no parseable token, the acquisition returns the deserialization error, the
dispatcher propagates it, and no resource request is attempted in that
call (the trace is the lone acquisition). -/
theorem claim_C6_unparseable_auth_body (env : Env) (now : Nat)
    (c : ClientState) (k : Nat) (method url : String) (body : Body)
    (arT : APIResponse) (auth2 : TokenResponse) (e : GoError)
    (hexp : c.auth.accessTokenExpired now = true)
    (h1 : env.net k = SendOutcome.ok arT)
    (h2 : env.parseToken arT.body c.auth = (auth2, some e)) :
    request env now c k method url body =
      { ar := none, err := some e, client := { c with auth := auth2 },
        calls := k + 1,
        events := [Event.acquire c.options.authURL c.credentials] } := by
  have htok := requestAndParseToken_parse_fail env now c k arT auth2 e h1 h2
  have herr : (requestAndParseToken env now c k).err = some e := by rw [htok]
  have h := request_expired_tok_fail env now c k method url body e hexp herr
  rw [h, htok]

/-- Witness for C6 on concrete inputs: an auth body without a token field
yields the deserialization error and a one-call trace. -/
theorem claim_C6_unparseable_auth_body_w :
    request envAuthGarbage 100 cStale 0 "GET" "/projects" Body.empty =
      { ar := none, err := some (GoError.other "badtoken"),
        client := { cStale with auth := cStale.auth }, calls := 1,
        events := [Event.acquire cStale.options.authURL cStale.credentials] } :=
  claim_C6_unparseable_auth_body envAuthGarbage 100 cStale 0 "GET" "/projects"
    Body.empty { body := "garbage" } cStale.auth (GoError.other "badtoken")
    (by decide) (by decide) (by decide)

/-- C5: whenever the dispatcher's request fails but still carries a response
body, `requestAndParseResponse` populates the caller's result object from
that body best-effort — the secondary parse's own failure is discarded — and
returns the original error unchanged. -/
theorem claim_C5_best_effort_error_body (env : Env) (now : Nat)
    (c : ClientState) (k : Nat) (method url : String) (body : Body)
    (resObj : ResObj) (a : APIResponse) (e : GoError)
    (h1 : (request env now c k method url body).err = some e)
    (h2 : (request env now c k method url body).ar = some a) :
    requestAndParseResponse env now c k method url body resObj =
      { res := (env.unmarshalRes a.body resObj).1, err := some e,
        client := (request env now c k method url body).client,
        calls := (request env now c k method url body).calls,
        events := (request env now c k method url body).events } := by
  rcases hr : request env now c k method url body with ⟨rar, rerr, rc, rk, rev⟩
  rw [hr] at h1 h2
  simp only at h1 h2
  subst h1
  subst h2
  simp [requestAndParseResponse, hr]

/-- Witness for C5 on concrete inputs: a failing call with "errbody" leaves
the test unmarshaller's partial population in the result object (its parse
error discarded) while the transport error is returned. -/
theorem claim_C5_best_effort_error_body_w :
    requestAndParseResponse envErrBody 100 cFresh 0 "GET" "/projects"
      Body.empty ResObj.empty =
      { res := (envErrBody.unmarshalRes "errbody" ResObj.empty).1,
        err := some (GoError.other "boom"),
        client := (request envErrBody 100 cFresh 0 "GET" "/projects"
          Body.empty).client,
        calls := (request envErrBody 100 cFresh 0 "GET" "/projects"
          Body.empty).calls,
        events := (request envErrBody 100 cFresh 0 "GET" "/projects"
          Body.empty).events } :=
  claim_C5_best_effort_error_body envErrBody 100 cFresh 0 "GET" "/projects"
    Body.empty ResObj.empty { body := "errbody" } (GoError.other "boom")
    (by decide) (by decide)

/-- C8: no operation of the client — token acquisition, the dispatcher, the
response parser, `GetAuth`, or any facade method — ever changes the
Credentials or Options fields; the only client state mutated is the cached
auth token, and a dispatcher run that issued no acquisition call leaves even
that unchanged (only the token-acquisition routine mutates it). -/
theorem claim_C8_frame_immutability (env : Env) (now : Nat) (c : ClientState)
    (k : Nat) (method url : String) (body : Body) (resObj : ResObj)
    (project : CreateUpdateProjectCriteria)
    (extProjectID extLineItemID lineItem buy action countryCode
      languageCode : String) :
    (((request env now c k method url body).events.all
        fun ev => !ev.isAcquire) = true →
      (request env now c k method url body).client.auth = c.auth) ∧
    (requestAndParseToken env now c k).client.credentials = c.credentials ∧
    (requestAndParseToken env now c k).client.options = c.options ∧
    (request env now c k method url body).client.credentials = c.credentials ∧
    (request env now c k method url body).client.options = c.options ∧
    (requestAndParseResponse env now c k method url body
      resObj).client.credentials = c.credentials ∧
    (requestAndParseResponse env now c k method url body
      resObj).client.options = c.options ∧
    (GetAuth env now c k).client.credentials = c.credentials ∧
    (GetAuth env now c k).client.options = c.options ∧
    (CreateProject env now c k project).client.credentials = c.credentials ∧
    (CreateProject env now c k project).client.options = c.options ∧
    (UpdateProject env now c k project).client.credentials = c.credentials ∧
    (UpdateProject env now c k project).client.options = c.options ∧
    (BuyProject env now c k extProjectID buy).client.credentials =
      c.credentials ∧
    (BuyProject env now c k extProjectID buy).client.options = c.options ∧
    (CloseProject env now c k extProjectID).client.credentials =
      c.credentials ∧
    (CloseProject env now c k extProjectID).client.options = c.options ∧
    (GetAllProjects env now c k).client.credentials = c.credentials ∧
    (GetAllProjects env now c k).client.options = c.options ∧
    (GetProjectBy env now c k extProjectID).client.credentials =
      c.credentials ∧
    (GetProjectBy env now c k extProjectID).client.options = c.options ∧
    (GetProjectReport env now c k extProjectID).client.credentials =
      c.credentials ∧
    (GetProjectReport env now c k extProjectID).client.options = c.options ∧
    (AddLineItem env now c k extProjectID lineItem).client.credentials =
      c.credentials ∧
    (AddLineItem env now c k extProjectID lineItem).client.options =
      c.options ∧
    (UpdateLineItem env now c k extProjectID extLineItemID
      lineItem).client.credentials = c.credentials ∧
    (UpdateLineItem env now c k extProjectID extLineItemID
      lineItem).client.options = c.options ∧
    (ChangeLineItemState env now c k extProjectID extLineItemID
      action).client.credentials = c.credentials ∧
    (ChangeLineItemState env now c k extProjectID extLineItemID
      action).client.options = c.options ∧
    (GetAllLineItems env now c k extProjectID).client.credentials =
      c.credentials ∧
    (GetAllLineItems env now c k extProjectID).client.options = c.options ∧
    (GetLineItemBy env now c k extProjectID extLineItemID).client.credentials =
      c.credentials ∧
    (GetLineItemBy env now c k extProjectID extLineItemID).client.options =
      c.options ∧
    (GetFeasibility env now c k extProjectID).client.credentials =
      c.credentials ∧
    (GetFeasibility env now c k extProjectID).client.options = c.options ∧
    (GetCountries env now c k).client.credentials = c.credentials ∧
    (GetCountries env now c k).client.options = c.options ∧
    (GetAttributes env now c k countryCode languageCode).client.credentials =
      c.credentials ∧
    (GetAttributes env now c k countryCode languageCode).client.options =
      c.options ∧
    (GetSurveyTopics env now c k).client.credentials = c.credentials ∧
    (GetSurveyTopics env now c k).client.options = c.options := by
  have hfc : ∀ m u b, (facadeCall env now c k m u b).client.credentials =
      c.credentials ∧
      (facadeCall env now c k m u b).client.options = c.options :=
    fun m u b => facadeCall_frame env now c k m u b
  have htok := requestAndParseToken_frame env now c k
  have hreq := request_frame env now c k method url body
  have hp := requestAndParseResponse_client env now c k method url body resObj
  have hga := GetAuth_frame env now c k
  refine ⟨request_no_acquire env now c k method url body, htok.1, htok.2.1,
    hreq.1, hreq.2, ?_, ?_, hga.1, hga.2,
    (hfc _ _ _).1, (hfc _ _ _).2, (hfc _ _ _).1, (hfc _ _ _).2,
    (hfc _ _ _).1, (hfc _ _ _).2, (hfc _ _ _).1, (hfc _ _ _).2,
    (hfc _ _ _).1, (hfc _ _ _).2, (hfc _ _ _).1, (hfc _ _ _).2,
    (hfc _ _ _).1, (hfc _ _ _).2, (hfc _ _ _).1, (hfc _ _ _).2,
    (hfc _ _ _).1, (hfc _ _ _).2, (hfc _ _ _).1, (hfc _ _ _).2,
    (hfc _ _ _).1, (hfc _ _ _).2, (hfc _ _ _).1, (hfc _ _ _).2,
    (hfc _ _ _).1, (hfc _ _ _).2, (hfc _ _ _).1, (hfc _ _ _).2,
    (hfc _ _ _).1, (hfc _ _ _).2, (hfc _ _ _).1, (hfc _ _ _).2⟩
  · rw [hp]
    exact hreq.1
  · rw [hp]
    exact hreq.2

/-- Witness for C8 on concrete inputs: a run with an unexpired token issues
no acquisition and leaves the cached auth token unchanged. -/
theorem claim_C8_frame_immutability_w :
    (request envAuthOk 100 cFresh 0 "GET" "/projects" Body.empty).client.auth =
      cFresh.auth :=
  (claim_C8_frame_immutability envAuthOk 100 cFresh 0 "GET" "/projects"
      Body.empty ResObj.empty { extProjectID := "p1", payload := "x" }
      "p" "l" "li" "b" "a" "us" "en").1 (by decide)

/-- C10: every facade method returns a non-nil result object even together
with a non-nil error, and on an error path that object may have been
populated from the error response body (the final conjunct exhibits a run
returning both an error and a populated object). -/
theorem claim_C10_nonnil_result_objects (env : Env) (now : Nat)
    (c : ClientState) (k : Nat) (project : CreateUpdateProjectCriteria)
    (extProjectID extLineItemID lineItem buy action countryCode
      languageCode : String) :
    (CreateProject env now c k project).res.isSome = true ∧
    (UpdateProject env now c k project).res.isSome = true ∧
    (BuyProject env now c k extProjectID buy).res.isSome = true ∧
    (CloseProject env now c k extProjectID).res.isSome = true ∧
    (GetAllProjects env now c k).res.isSome = true ∧
    (GetProjectBy env now c k extProjectID).res.isSome = true ∧
    (GetProjectReport env now c k extProjectID).res.isSome = true ∧
    (AddLineItem env now c k extProjectID lineItem).res.isSome = true ∧
    (UpdateLineItem env now c k extProjectID extLineItemID
      lineItem).res.isSome = true ∧
    (ChangeLineItemState env now c k extProjectID extLineItemID
      action).res.isSome = true ∧
    (GetAllLineItems env now c k extProjectID).res.isSome = true ∧
    (GetLineItemBy env now c k extProjectID extLineItemID).res.isSome = true ∧
    (GetFeasibility env now c k extProjectID).res.isSome = true ∧
    (GetCountries env now c k).res.isSome = true ∧
    (GetAttributes env now c k countryCode languageCode).res.isSome = true ∧
    (GetSurveyTopics env now c k).res.isSome = true ∧
    ∃ envE nowE cE kE pE,
      (CreateProject envE nowE cE kE pE).err.isSome = true ∧
      (CreateProject envE nowE cE kE pE).res ≠ some ResObj.empty := by
  refine ⟨rfl, rfl, rfl, rfl, rfl, rfl, rfl, rfl, rfl, rfl, rfl, rfl, rfl,
    rfl, rfl, rfl, envErrBody, 100, cFresh, 0,
    { extProjectID := "p1", payload := "x" }, by decide, by decide⟩

end Samplify
